import Mathlib

/-!
Verification of the REINFORCE-with-IFEval trainer
(`nemo_aligner/algorithms/reinforce_ifeval.py`).

The Python tensor code is shallowly embedded over `List ℚ` / `List ℕ`:
a batch is a list of per-sample records, rewards and log-prob derived
quantities are exact rationals, and token sequences are lists of token
ids.  Each definition mirrors one function (or one code path) of the
source file; line numbers in the doc comments refer to that file.
-/

namespace ReinforceIFEval

/-- One sample of a rollout batch as consumed by `get_rloo_baseline`:
its prompt-token sequence, its (blended) reward and its per-sample KL
penalty scalar. -/
structure RLSample where
  prompt_tokens : List ℕ
  rewards : ℚ
  init_policy_kl : ℚ
  deriving DecidableEq, Repr

/-- Line 166: `regularized_reward = batch["rewards"] - self.cfg.initial_policy_kl_penalty * batch["init_policy_kl"]`. -/
def regularized_reward (klCoef : ℚ) (s : RLSample) : ℚ :=
  s.rewards - klCoef * s.init_policy_kl

/-- Line 171: the indices of the batch whose prompt-token sequence equals `p`
(`prompt_idx = torch.arange(len(batch["prompt_tokens"]))[(batch["prompt_tokens"] == unique_prompts[i]).all(1)]`). -/
def groupIndices (prompts : List (List ℕ)) (p : List ℕ) : List ℕ :=
  (List.range prompts.length).filter (fun i => prompts.getD i [] = p)

/-- Lines 171-175, the body of the loop over unique prompts: positions of
the group of `p` receive `((1 - I) ⬝ r) / (n - 1)` — entrywise
`(Σ_group r - r_i) / (n - 1)` — and every other position keeps its
current baseline. -/
def rlooScatter (prompts : List (List ℕ)) (reg : List ℚ) (baseline : List ℚ)
    (p : List ℕ) : List ℚ :=
  let idx := groupIndices prompts p
  let S : ℚ := (idx.map (fun j => reg.getD j 0)).sum
  (List.range prompts.length).map (fun i =>
    if prompts.getD i [] = p then (S - reg.getD i 0) / ((idx.length : ℚ) - 1)
    else baseline.getD i 0)

/-- Lines 161-176, `get_rloo_baseline`: the baseline starts as zeros
(line 168) and the loop over the unique prompts of the batch (line 170)
scatters the leave-one-out value into each prompt group.  `torch.unique`
enumerates the distinct prompt rows; it is modelled by `List.dedup`. -/
def get_rloo_baseline (klCoef : ℚ) (batch : List RLSample) : List ℚ :=
  let prompts := batch.map RLSample.prompt_tokens
  let reg := batch.map (regularized_reward klCoef)
  (prompts.dedup).foldl (rlooScatter prompts reg) (List.replicate batch.length 0)

/-- The divisors `len(prompt_idx) - 1` (line 174) used by
`get_rloo_baseline`, one per unique prompt of the batch. -/
def rloo_group_divisors (batch : List RLSample) : List ℤ :=
  ((batch.map RLSample.prompt_tokens).dedup).map
    (fun p => ((groupIndices (batch.map RLSample.prompt_tokens) p).length : ℤ) - 1)

/-- The leave-one-out value `get_rloo_baseline` writes at position `i`:
with `idx` the group of sample `i` (the indices sharing its prompt),
`(Σ_{j ∈ idx} reg_j - reg_i) / (|idx| - 1)`. -/
def rlooVal (prompts : List (List ℕ)) (reg : List ℚ) (i : ℕ) : ℚ :=
  let idx := groupIndices prompts (prompts.getD i [])
  ((idx.map (fun j => reg.getD j 0)).sum - reg.getD i 0) / ((idx.length : ℚ) - 1)

/-- Line 224 (training path of `_run_inference`):
`rewards = rm_rewards * self.cfg.rm_multiplier + ifeval_mask * ifeval_rewards * self.cfg.ifeval_multiplier`. -/
def training_reward (rm_multiplier ifeval_multiplier rm_reward ifeval_reward ifeval_mask : ℚ) : ℚ :=
  rm_reward * rm_multiplier + ifeval_mask * ifeval_reward * ifeval_multiplier

/-- Line 267 (validation path of `_run_inference`):
`rewards = self.cfg.ifeval_multiplier * ifeval_mask * ifeval_rewards + (1 - ifeval_mask) * rm_rewards`. -/
def validation_reward (ifeval_multiplier rm_reward ifeval_reward ifeval_mask : ℚ) : ℚ :=
  ifeval_multiplier * ifeval_mask * ifeval_reward + (1 - ifeval_mask) * rm_reward

/-- Line 251: `current_batch["init_policy_kl"] = (init_policy_kl * mask).mean(-1)`,
the per-sample reduction of the per-token KL values: elementwise product
with the validity mask, then `torch.mean` over the sequence axis, which
divides by the full sequence length. -/
def per_sample_kl_scalar (kl mask : List ℚ) : ℚ :=
  (List.zipWith (· * ·) kl mask).sum / (kl.length : ℚ)

/-- Modelled from the spec: "Output is reduced to one scalar per sample
by a masked mean over valid response-token positions (mask excludes
prompt positions and padding)" — the sum of the masked values divided by
the number of valid (mask = 1) positions.  Kept separate from
`per_sample_kl_scalar`, which embeds the source, so the two can be
compared. -/
def spec_masked_mean (kl mask : List ℚ) : ℚ :=
  (List.zipWith (· * ·) kl mask).sum / mask.sum

/-- The three external calls of one training-path generation round. -/
inductive RoundCall where
  | issue_rm_critic_call
  | join_rm_critic_result
  | ref_policy_logprob_call
  deriving DecidableEq, Repr

/-- Lines 221-225, in program order: line 221 issues the asynchronous
reward-critic call (`future, ... = self.rm_critic.infer_rm_critic(...)`),
line 222 immediately joins it (`rm_rewards = future.result().detach()`),
and only then does line 225 request the reference-policy log-probs
(`init_policy_logprobs = self.model.get_init_policy_logprobs(...)`). -/
def training_round_call_order : List RoundCall :=
  [RoundCall.issue_rm_critic_call, RoundCall.join_rm_critic_result,
    RoundCall.ref_policy_logprob_call]

/-- Position of a call in the round's program order. -/
def callPos (c : RoundCall) : ℕ :=
  training_round_call_order.indexOf c

/-- One per-microbatch rollout record as consumed by
`compute_global_rollout_metrics` (lines 277-341): per-sample lengths,
per-sample full token sequences, and the three per-sample reward
streams. -/
structure RolloutRecord where
  prompt_lengths : List ℕ
  response_lengths : List ℕ
  response_tokens : List (List ℕ)
  rewards : List ℚ
  rm_rewards : List ℚ
  ifeval_rewards : List ℚ
  deriving DecidableEq, Repr

/-- Lines 309-320: the worker-local sums packed into
`tensor_to_accumulate`, in its fixed order
`[response_lengths, prompt_lengths, rewards, rm_rewards, ifeval_rewards, num_samples]`.
Note line 311: the `rewards` slot is accumulated from
`rm_rewards.sum()`, not from the combined `rewards` stream. -/
def local_metric_sums (rbs : List RolloutRecord) : List ℚ :=
  [(rbs.map (fun rb => (rb.response_lengths.map (fun n => (n : ℚ))).sum
      - (rb.prompt_lengths.map (fun n => (n : ℚ))).sum)).sum,
    (rbs.map (fun rb => (rb.prompt_lengths.map (fun n => (n : ℚ))).sum)).sum,
    (rbs.map (fun rb => rb.rm_rewards.sum)).sum,
    (rbs.map (fun rb => rb.rm_rewards.sum)).sum,
    (rbs.map (fun rb => rb.ifeval_rewards.sum)).sum,
    (rbs.map (fun rb => (rb.prompt_lengths.length : ℚ))).sum]

/-- Line 321: `torch.distributed.all_reduce(tensor_to_accumulate, ...)`
with the default sum op — the componentwise sum of every worker's local
vector. -/
def all_reduce_sum (workers : List (List ℚ)) : List ℚ :=
  workers.foldl (fun acc v => List.zipWith (· + ·) acc v) (List.replicate 6 0)

/-- Lines 332-339: every accumulated quantity divided by the reduced
sample count plus `1e-6`. -/
def global_rollout_means (workers : List (List ℚ)) : List ℚ :=
  let g := all_reduce_sum workers
  let n := g.getD 5 0
  (g.take 5).map (fun x => x / (n + 1 / 1000000))

/-- The human-readable logged example (lines 292-307). -/
structure TableEntry where
  reward : ℚ
  rm_reward : ℚ
  ifeval_reward : ℚ
  prompt : List ℕ
  response : List ℕ
  deriving DecidableEq, Repr

/-- Lines 292-307: the logged example is built from the first sample of
the first rollout record only (`if i == 0`, index `[0]` of each field).
Line 300 stores `rm_reward.item()` under the `reward` key; the prompt
text is decoded from `response_token[:prompt_length]` and the response
text from `response_token[prompt_length:response_length]` (decoding by
the tokenizer is external, so the token slices themselves are kept). -/
def compute_table (rbs : List RolloutRecord) : Option TableEntry :=
  match rbs with
  | [] => none
  | rb :: _ =>
      let pl := rb.prompt_lengths.getD 0 0
      let rl := rb.response_lengths.getD 0 0
      let toks := rb.response_tokens.getD 0 []
      some { reward := rb.rm_rewards.getD 0 0,
             rm_reward := rb.rm_rewards.getD 0 0,
             ifeval_reward := rb.ifeval_rewards.getD 0 0,
             prompt := toks.take pl,
             response := (toks.take rl).drop pl }

/-- The trainer's persistent counters (lines 82-86), plus the derived
`max_steps` bound (line 90 / line 556). -/
structure TrainerState where
  step : ℕ
  consumed_samples : ℕ
  reinforce_optimization_step : ℕ
  max_steps : ℤ
  deriving DecidableEq, Repr

/-- Lines 580-582, the `epoch` property: `self.step // self.num_steps_per_epoch`. -/
def epoch (num_steps_per_epoch : ℕ) (s : TrainerState) : ℕ :=
  s.step / num_steps_per_epoch

/-- Lines 574-578, `set_max_steps`:
`self.max_steps = self.num_steps_per_epoch * self.cfg.max_epochs`, then
capped by `cfg.get("max_steps", -1)` when that override is `>= 0`. -/
def set_max_steps (num_steps_per_epoch max_epochs : ℕ) (cfg_max_steps : ℤ) : ℤ :=
  let ms : ℤ := (num_steps_per_epoch : ℤ) * (max_epochs : ℤ)
  if 0 ≤ cfg_max_steps then min ms cfg_max_steps else ms

/-- Lines 535-541, `state_dict`: the persisted snapshot, as the ordered
key/value pairs of the Python dict literal.  It stores four entries,
`epoch` among them (line 539), computed as `self.epoch`. -/
def state_dict (num_steps_per_epoch : ℕ) (s : TrainerState) : List (String × ℕ) :=
  [("step", s.step),
   ("consumed_samples", s.consumed_samples),
   ("epoch", epoch num_steps_per_epoch s),
   ("ppo_optimization_step", s.reinforce_optimization_step)]

/-- Lines 543-556, `load_state_dict`: read `step`, `consumed_samples`
and `ppo_optimization_step` from the snapshot (the `epoch` entry is
never read), broadcast rank 0's loaded triple and assert the local
triple equals it (line 554) — a failed assertion aborts the run, which
is `none` here — then recompute `max_steps` via `set_max_steps`
(line 556).  `rank0` is the triple broadcast from rank 0. -/
def load_state_dict (num_steps_per_epoch max_epochs : ℕ) (cfg_max_steps : ℤ)
    (rank0 : ℕ × ℕ × ℕ) (sd : List (String × ℕ)) : Option TrainerState :=
  match sd.lookup "step", sd.lookup "consumed_samples",
      sd.lookup "ppo_optimization_step" with
  | some st, some cs, some os =>
      if (st, cs, os) = rank0 then
        some { step := st, consumed_samples := cs, reinforce_optimization_step := os,
               max_steps := set_max_steps num_steps_per_epoch max_epochs cfg_max_steps }
      else none
  | _, _, _ => none

lemma getD_map_range (g : ℕ → ℚ) (L i : ℕ) (h : i < L) :
    ((List.range L).map g).getD i 0 = g i := by
  have hl : i < ((List.range L).map g).length := by simpa using h
  rw [List.getD_eq_getElem _ _ hl, List.getElem_map, List.getElem_range]

lemma rlooScatter_length (prompts : List (List ℕ)) (reg b : List ℚ) (p : List ℕ) :
    (rlooScatter prompts reg b p).length = prompts.length := by
  simp [rlooScatter]

lemma rlooScatter_getD (prompts : List (List ℕ)) (reg b : List ℚ) (p : List ℕ)
    (i : ℕ) (hi : i < prompts.length) :
    (rlooScatter prompts reg b p).getD i 0 =
      if prompts.getD i [] = p then rlooVal prompts reg i else b.getD i 0 := by
  unfold rlooScatter
  rw [getD_map_range _ _ _ hi]
  by_cases h : prompts.getD i [] = p
  · rw [if_pos h, if_pos h, rlooVal]
    rw [← h]
  · rw [if_neg h, if_neg h]

lemma foldl_rlooScatter_getD (prompts : List (List ℕ)) (reg : List ℚ)
    (ps : List (List ℕ)) (i : ℕ) (hi : i < prompts.length) :
    ∀ b : List ℚ,
      (ps.foldl (rlooScatter prompts reg) b).getD i 0 =
        if prompts.getD i [] ∈ ps then rlooVal prompts reg i else b.getD i 0 := by
  induction ps with
  | nil => intro b; simp
  | cons p ps ih =>
      intro b
      rw [List.foldl_cons, ih, rlooScatter_getD _ _ _ _ _ hi]
      by_cases h1 : prompts.getD i [] ∈ ps
      · rw [if_pos h1, if_pos (List.mem_cons.mpr (Or.inr h1))]
      · rw [if_neg h1]
        by_cases h2 : prompts.getD i [] = p
        · rw [if_pos h2, if_pos (List.mem_cons.mpr (Or.inl h2))]
        · rw [if_neg h2, if_neg (fun hm => (List.mem_cons.mp hm).elim h2 h1)]

lemma foldl_rlooScatter_length (prompts : List (List ℕ)) (reg : List ℚ)
    (ps : List (List ℕ)) :
    ∀ b : List ℚ, b.length = prompts.length →
      (ps.foldl (rlooScatter prompts reg) b).length = prompts.length := by
  induction ps with
  | nil => intro b hb; simpa using hb
  | cons p ps ih =>
      intro b hb
      rw [List.foldl_cons]
      exact ih _ (rlooScatter_length _ _ _ _)

lemma get_rloo_baseline_length (klCoef : ℚ) (batch : List RLSample) :
    (get_rloo_baseline klCoef batch).length = batch.length := by
  unfold get_rloo_baseline
  rw [foldl_rlooScatter_length _ _ _ _ (by simp)]
  simp

lemma get_rloo_baseline_getD (klCoef : ℚ) (batch : List RLSample) (i : ℕ)
    (hi : i < batch.length) :
    (get_rloo_baseline klCoef batch).getD i 0 =
      rlooVal (batch.map RLSample.prompt_tokens) (batch.map (regularized_reward klCoef)) i := by
  unfold get_rloo_baseline
  have hi' : i < (batch.map RLSample.prompt_tokens).length := by simpa using hi
  rw [foldl_rlooScatter_getD _ _ _ _ hi']
  rw [if_pos]
  rw [List.getD_eq_getElem _ _ hi']
  exact List.mem_dedup.mpr (List.getElem_mem hi')

lemma mem_groupIndices_self (prompts : List (List ℕ)) (i : ℕ) (hi : i < prompts.length) :
    i ∈ groupIndices prompts (prompts.getD i []) := by
  unfold groupIndices
  rw [List.mem_filter]
  exact ⟨List.mem_range.mpr hi, by simp⟩

lemma nodup_groupIndices (prompts : List (List ℕ)) (p : List ℕ) :
    (groupIndices prompts p).Nodup :=
  (List.nodup_range prompts.length).filter _

lemma sum_map_filter_ne (l : List ℕ) (f : ℕ → ℚ) (i : ℕ)
    (hnd : l.Nodup) (hmem : i ∈ l) :
    ((l.filter (fun j => j ≠ i)).map f).sum = (l.map f).sum - f i := by
  induction l with
  | nil => cases hmem
  | cons a l ih =>
      rw [List.nodup_cons] at hnd
      rcases List.mem_cons.mp hmem with h | h
      · subst h
        have hfl : l.filter (fun j => j ≠ i) = l :=
          List.filter_eq_self.mpr (fun j hj => by
            simp only [ne_eq, decide_eq_true_eq]
            exact fun hji => hnd.1 (hji ▸ hj))
        rw [List.filter_cons, if_neg (by simp), hfl, List.map_cons, List.sum_cons]
        ring
      · have hai : a ≠ i := fun hai => hnd.1 (hai ▸ h)
        rw [List.filter_cons, if_pos (by simp [hai]), List.map_cons, List.sum_cons,
          ih hnd.2 h, List.map_cons, List.sum_cons]
        ring

/-- Claim C1: `get_rloo_baseline` keeps the input sample ordering (the
output has one baseline per input sample, positionally), and each member
`i` of a prompt group of size at least 2 receives the mean of the other
members' regularized rewards, `(Σ_{j ≠ i} reg_j) / (n - 1)`; for a
two-sample batch sharing one prompt with regularized rewards `[a, b]`
the baselines are `[b, a]`. -/
theorem rloo_baseline_leave_one_out (klCoef : ℚ) (batch : List RLSample) :
    (get_rloo_baseline klCoef batch).length = batch.length ∧
    (∀ i, i < batch.length →
      2 ≤ (groupIndices (batch.map RLSample.prompt_tokens)
            ((batch.map RLSample.prompt_tokens).getD i [])).length →
      (get_rloo_baseline klCoef batch).getD i 0 =
        (((groupIndices (batch.map RLSample.prompt_tokens)
              ((batch.map RLSample.prompt_tokens).getD i [])).filter (fun j => j ≠ i)).map
            (fun j => (batch.map (regularized_reward klCoef)).getD j 0)).sum /
          (((groupIndices (batch.map RLSample.prompt_tokens)
              ((batch.map RLSample.prompt_tokens).getD i [])).length : ℚ) - 1)) ∧
    (∀ (p : List ℕ) (a b : ℚ),
      get_rloo_baseline klCoef [⟨p, a, 0⟩, ⟨p, b, 0⟩] = [b, a]) := by
  refine ⟨get_rloo_baseline_length klCoef batch, ?_, ?_⟩
  · intro i hi _
    have hi' : i < (batch.map RLSample.prompt_tokens).length := by simpa using hi
    rw [get_rloo_baseline_getD _ _ _ hi,
      sum_map_filter_ne _ _ _ (nodup_groupIndices _ _) (mem_groupIndices_self _ _ hi')]
    rfl
  · intro p a b
    have hg : groupIndices [p, p] p = [0, 1] := by
      simp [groupIndices, List.range_succ]
    have hlen2 : (get_rloo_baseline klCoef [⟨p, a, 0⟩, ⟨p, b, 0⟩]).length = 2 := by
      rw [get_rloo_baseline_length]; rfl
    obtain ⟨x, y, hxy⟩ := List.length_eq_two.mp hlen2
    have h0 := get_rloo_baseline_getD klCoef [⟨p, a, 0⟩, ⟨p, b, 0⟩] 0 (by norm_num)
    have h1 := get_rloo_baseline_getD klCoef [⟨p, a, 0⟩, ⟨p, b, 0⟩] 1 (by norm_num)
    rw [hxy, List.getD_cons_zero] at h0
    rw [hxy, List.getD_cons_succ, List.getD_cons_zero] at h1
    have hv0 : rlooVal (([⟨p, a, 0⟩, ⟨p, b, 0⟩] : List RLSample).map RLSample.prompt_tokens)
        (([⟨p, a, 0⟩, ⟨p, b, 0⟩] : List RLSample).map (regularized_reward klCoef)) 0 = b := by
      show rlooVal [p, p] [a - klCoef * 0, b - klCoef * 0] 0 = b
      unfold rlooVal
      simp only [List.getD_cons_zero, hg]
      norm_num
    have hv1 : rlooVal (([⟨p, a, 0⟩, ⟨p, b, 0⟩] : List RLSample).map RLSample.prompt_tokens)
        (([⟨p, a, 0⟩, ⟨p, b, 0⟩] : List RLSample).map (regularized_reward klCoef)) 1 = a := by
      show rlooVal [p, p] [a - klCoef * 0, b - klCoef * 0] 1 = a
      unfold rlooVal
      simp only [List.getD_cons_succ, List.getD_cons_zero, hg]
      norm_num
    rw [hxy, h0.trans hv0, h1.trans hv1]

/-- Witness for C1 at the concrete batch of two samples sharing prompt
`[7]`, rewards `3` and `5`, zero KL: the baselines are `[5, 3]` and the
leave-one-out formula instance holds at index 0. -/
theorem rloo_baseline_leave_one_out_witness :
    get_rloo_baseline 0 [⟨[7], 3, 0⟩, ⟨[7], 5, 0⟩] = [5, 3] ∧
    (get_rloo_baseline 0 [⟨[7], 3, 0⟩, ⟨[7], 5, 0⟩]).getD 0 0 = 5 := by
  have h := (rloo_baseline_leave_one_out 0 [⟨[7], 3, 0⟩, ⟨[7], 5, 0⟩]).2.1 0
    (by norm_num) (by decide)
  refine ⟨(rloo_baseline_leave_one_out 0 [⟨[7], 3, 0⟩, ⟨[7], 5, 0⟩]).2.2 [7] 3 5, ?_⟩
  rw [h]
  norm_num [groupIndices, List.range_succ, regularized_reward]

/-- Claim C8: no guard exists for singleton prompt groups — under the
precondition that every prompt group has size at least 2, every divisor
`n - 1` used by `get_rloo_baseline` is nonzero, while a batch with a
prompt group of size 1 puts the divisor `0` among the divisors used. -/
theorem rloo_singleton_group_divisor (batch : List RLSample) :
    ((∀ p ∈ (batch.map RLSample.prompt_tokens).dedup,
        2 ≤ (groupIndices (batch.map RLSample.prompt_tokens) p).length) →
      ∀ d ∈ rloo_group_divisors batch, d ≠ 0) ∧
    (∀ p ∈ (batch.map RLSample.prompt_tokens).dedup,
      (groupIndices (batch.map RLSample.prompt_tokens) p).length = 1 →
      (0 : ℤ) ∈ rloo_group_divisors batch) := by
  constructor
  · intro hall d hd
    obtain ⟨p, hp, rfl⟩ := List.mem_map.mp hd
    have h2 := hall p hp
    omega
  · intro p hp h1
    refine List.mem_map.mpr ⟨p, hp, ?_⟩
    rw [h1]
    norm_num

/-- Witness for C8: for the batch of two samples sharing prompt `[1]`
every divisor is nonzero, while the singleton batch with prompt `[3]`
uses the divisor `0`. -/
theorem rloo_singleton_group_divisor_witness :
    (∀ d ∈ rloo_group_divisors [⟨[1], (1 : ℚ), 0⟩, ⟨[1], 2, 0⟩], d ≠ 0) ∧
    (0 : ℤ) ∈ rloo_group_divisors [⟨[3], (1 : ℚ), 0⟩] :=
  ⟨(rloo_singleton_group_divisor [⟨[1], (1 : ℚ), 0⟩, ⟨[1], 2, 0⟩]).1 (by decide),
    (rloo_singleton_group_divisor [⟨[3], (1 : ℚ), 0⟩]).2 [3] (by decide) (by decide)⟩

/-- Claim C2: on the training path the blended reward is
`rm_reward * rm_multiplier + constraint_mask * constraint_reward * constraint_multiplier`,
on the validation path it is
`constraint_multiplier * constraint_mask * constraint_reward + (1 - constraint_mask) * rm_reward`,
and at `rm_reward = 2`, `constraint_reward = 1`, `constraint_mask = 1`,
`rm_multiplier = 1/2`, `constraint_multiplier = 2` the training path
yields `3` while the validation path yields `2`, so the two formulas
differ on the same input. -/
theorem training_and_validation_reward_blending :
    (∀ rmM ifM rm cr m : ℚ,
      training_reward rmM ifM rm cr m = rm * rmM + m * cr * ifM) ∧
    (∀ ifM rm cr m : ℚ,
      validation_reward ifM rm cr m = ifM * m * cr + (1 - m) * rm) ∧
    training_reward (1 / 2) 2 2 1 1 = 3 ∧
    validation_reward 2 2 1 1 = 2 ∧
    training_reward (1 / 2) 2 2 1 1 ≠ validation_reward 2 2 1 1 := by
  refine ⟨fun _ _ _ _ _ => rfl, fun _ _ _ _ => rfl, by norm_num [training_reward],
    by norm_num [validation_reward], by norm_num [training_reward, validation_reward]⟩

lemma sum_zipWith_mul_set (kl mask : List ℚ) (i : ℕ) (v : ℚ)
    (hm : mask.getD i 0 = 0) :
    (List.zipWith (· * ·) (kl.set i v) mask).sum = (List.zipWith (· * ·) kl mask).sum := by
  induction kl generalizing mask i with
  | nil => simp
  | cons x xs ih =>
      cases mask with
      | nil => simp
      | cons y ys =>
          cases i with
          | zero =>
              rw [List.getD_cons_zero] at hm
              simp [hm]
          | succ n =>
              rw [List.getD_cons_succ] at hm
              simp [ih ys n hm]

/-- Claim C4 counterexample: with per-token KL values `[1, 1]` and
validity mask `[1, 0]`, the source's reduction
`(init_policy_kl * mask).mean(-1)` yields `1/2`, not the masked mean `1`
the claim describes — the masked-out position still counts in the
denominator. -/
theorem per_sample_kl_not_masked_mean :
    per_sample_kl_scalar [1, 1] [1, 0] ≠ spec_masked_mean [1, 1] [1, 0] := by
  norm_num [per_sample_kl_scalar, spec_masked_mean]

/-- Claim C4 as amended: the per-sample KL penalty scalar equals the sum
of the per-token KL values times the mask, divided by the total number
of token positions; a masked-out position contributes nothing to the
numerator (changing its KL value changes nothing) but still counts in
the denominator. -/
theorem per_sample_kl_total_length_mean (kl mask : List ℚ) (i : ℕ) (v : ℚ)
    (hm : mask.getD i 0 = 0) :
    per_sample_kl_scalar kl mask =
      (List.zipWith (· * ·) kl mask).sum / (kl.length : ℚ) ∧
    per_sample_kl_scalar (kl.set i v) mask = per_sample_kl_scalar kl mask := by
  refine ⟨rfl, ?_⟩
  unfold per_sample_kl_scalar
  rw [sum_zipWith_mul_set kl mask i v hm, List.length_set]

/-- Witness for the amended C4 at `kl = [1, 1]`, `mask = [1, 0]`,
replacing the masked-out position by `42`. -/
theorem per_sample_kl_total_length_mean_witness :
    ([(1 : ℚ), 0].getD 1 0 = 0) ∧
    per_sample_kl_scalar (([1, 1] : List ℚ).set 1 42) [1, 0] =
      per_sample_kl_scalar [1, 1] [1, 0] :=
  ⟨by norm_num, (per_sample_kl_total_length_mean [1, 1] [1, 0] 1 42 (by norm_num)).2⟩

/-- Claim C5 counterexample: in the training-path generation round the
reference-policy log-prob request is NOT issued before the join on the
reward-critic result — line 222 joins the future immediately, before
line 225 requests the reference log-probs. -/
theorem ref_logprob_call_not_before_join :
    ¬ (callPos RoundCall.ref_policy_logprob_call <
        callPos RoundCall.join_rm_critic_result) := by
  decide

/-- Claim C5 as amended: the asynchronous reward-critic request is
issued first and joined immediately afterwards; the reference-policy
log-probs are requested only after the join, so the two external calls
do not overlap; each round issues and joins the critic request exactly
once. -/
theorem critic_joined_before_ref_logprob_call :
    callPos RoundCall.issue_rm_critic_call <
      callPos RoundCall.join_rm_critic_result ∧
    callPos RoundCall.join_rm_critic_result <
      callPos RoundCall.ref_policy_logprob_call ∧
    training_round_call_order.count RoundCall.issue_rm_critic_call = 1 ∧
    training_round_call_order.count RoundCall.join_rm_critic_result = 1 := by
  decide

/-- Claim C3: evaluation at a one-worker, one-record cycle whose
combined reward is `3` but whose reward-model reward is `2`: the third
slot of the accumulated vector — the one reported as the combined-reward
sum — holds `2`, the reward-model sum (line 311 accumulates
`rm_rewards.sum()` into `metrics["rewards"]`), not the combined sum
`3`. -/
theorem metrics_rewards_slot_holds_rm_sum :
    (local_metric_sums [{ prompt_lengths := [1], response_lengths := [2],
                          response_tokens := [[5, 6]], rewards := [3], rm_rewards := [2],
                          ifeval_rewards := [0] }]).getD 2 0 = 2 ∧
    ({ prompt_lengths := [1], response_lengths := [2], response_tokens := [[5, 6]],
       rewards := [3], rm_rewards := [2],
       ifeval_rewards := [0] } : RolloutRecord).rewards.sum = 3 ∧
    ((2 : ℚ) ≠ 3) := by
  refine ⟨?_, ?_, by norm_num⟩ <;> simp [local_metric_sums]

/-- Claim C10: evaluation at a cycle whose first sample has combined
reward `3` and reward-model reward `2`: the logged example's `reward`
slot holds `2`, the reward-model value (line 300 stores
`rm_reward.item()`), not the sample's combined reward `3`; the other
slots and the prompt/response token slices are as the claim says. -/
theorem table_reward_slot_holds_rm :
    compute_table [{ prompt_lengths := [1], response_lengths := [2],
                     response_tokens := [[5, 6]], rewards := [3], rm_rewards := [2],
                     ifeval_rewards := [0] }] =
      some { reward := 2, rm_reward := 2, ifeval_reward := 0,
             prompt := [5], response := [6] } ∧
    ({ prompt_lengths := [1], response_lengths := [2], response_tokens := [[5, 6]],
       rewards := [3], rm_rewards := [2],
       ifeval_rewards := [0] } : RolloutRecord).rewards.getD 0 0 = 3 ∧
    ((2 : ℚ) ≠ 3) := by
  refine ⟨?_, by norm_num, by norm_num⟩
  simp [compute_table]

/-- Claim C6: restoring the snapshot produced by `state_dict` yields
exactly the saved step, consumed-samples and optimization-step counters
(with `max_steps` recomputed), provided the rank-0 broadcast matches the
locally loaded triple; a worker whose loaded triple differs from the
broadcast fails the assertion of line 554, aborting the run (`none`). -/
theorem state_snapshot_roundtrip_and_mismatch (nspe me : ℕ) (cms : ℤ) (s : TrainerState) :
    load_state_dict nspe me cms (s.step, s.consumed_samples, s.reinforce_optimization_step)
        (state_dict nspe s) =
      some { step := s.step, consumed_samples := s.consumed_samples,
             reinforce_optimization_step := s.reinforce_optimization_step,
             max_steps := set_max_steps nspe me cms } ∧
    (∀ r0 : ℕ × ℕ × ℕ,
      r0 ≠ (s.step, s.consumed_samples, s.reinforce_optimization_step) →
      load_state_dict nspe me cms r0 (state_dict nspe s) = none) := by
  constructor
  · simp [load_state_dict, state_dict, List.lookup]
  · intro r0 hr0
    have hne : (s.step, s.consumed_samples, s.reinforce_optimization_step) ≠ r0 :=
      Ne.symm hr0
    simp only [load_state_dict, state_dict, List.lookup]
    simp [hne]

/-- Witness for C6 at the concrete state
`step = 25, consumed_samples = 100, optimization_step = 7` with
`steps_per_epoch = 10, max_epochs = 3`, no override: a matching
broadcast restores the three counters (and `max_steps = 30`), a
broadcast differing in the step counter aborts. -/
theorem state_snapshot_roundtrip_and_mismatch_witness :
    load_state_dict 10 3 (-1) (25, 100, 7)
        (state_dict 10 { step := 25, consumed_samples := 100,
                         reinforce_optimization_step := 7, max_steps := 0 }) =
      some { step := 25, consumed_samples := 100, reinforce_optimization_step := 7,
             max_steps := 30 } ∧
    load_state_dict 10 3 (-1) (26, 100, 7)
        (state_dict 10 { step := 25, consumed_samples := 100,
                         reinforce_optimization_step := 7, max_steps := 0 }) = none := by
  constructor
  · have h := (state_snapshot_roundtrip_and_mismatch 10 3 (-1)
      { step := 25, consumed_samples := 100, reinforce_optimization_step := 7,
        max_steps := 0 }).1
    rw [h]
    rfl
  · exact (state_snapshot_roundtrip_and_mismatch 10 3 (-1)
      { step := 25, consumed_samples := 100, reinforce_optimization_step := 7,
        max_steps := 0 }).2 (26, 100, 7) (by decide)

/-- Claim C7 counterexample: the snapshot produced by `state_dict` does
not consist of the three counters only — it also stores an `epoch`
entry (line 539), here for the concrete state `step = 25`,
`steps_per_epoch = 10`. -/
theorem epoch_stored_in_state_dict :
    "epoch" ∈ (state_dict 10 { step := 25, consumed_samples := 100,
                               reinforce_optimization_step := 7,
                               max_steps := 30 }).map Prod.fst := by
  simp [state_dict]

/-- Claim C7 as amended: the snapshot stores four entries — `step`,
`consumed_samples`, `epoch` and `ppo_optimization_step` — where the
`epoch` entry holds the derived value `step / steps_per_epoch`; the
`epoch` entry is never read on restore (restoring snapshots that differ
only in it gives identical results), and the in-memory epoch is always
the pure derived function `step / steps_per_epoch`. -/
theorem state_dict_layout_and_derived_epoch (nspe me : ℕ) (cms : ℤ)
    (s : TrainerState) (r0 : ℕ × ℕ × ℕ) :
    (state_dict nspe s).map Prod.fst =
      ["step", "consumed_samples", "epoch", "ppo_optimization_step"] ∧
    (state_dict nspe s).lookup "epoch" = some (epoch nspe s) ∧
    (∀ nspe2 : ℕ, load_state_dict nspe me cms r0 (state_dict nspe2 s) =
      load_state_dict nspe me cms r0 (state_dict nspe s)) ∧
    epoch nspe s = s.step / nspe := by
  refine ⟨by simp [state_dict], by simp [state_dict, List.lookup], ?_, rfl⟩
  intro nspe2
  simp [load_state_dict, state_dict, List.lookup]

/-- Claim C9: `max_steps` is `min(steps_per_epoch * max_epochs, override)`
when the configured override is nonnegative and
`steps_per_epoch * max_epochs` otherwise (`-1` disables the cap), it is
recomputed by the same formula whenever `load_state_dict` succeeds, and
concretely `epochs = 3, steps_per_epoch = 10` give `30` with no
override, `25` with `override = 25`, and `30` with `override = -1`. -/
theorem max_steps_formula :
    (∀ (nspe me : ℕ) (cms : ℤ), 0 ≤ cms →
      set_max_steps nspe me cms = min ((nspe : ℤ) * (me : ℤ)) cms) ∧
    (∀ (nspe me : ℕ) (cms : ℤ), cms < 0 →
      set_max_steps nspe me cms = (nspe : ℤ) * (me : ℤ)) ∧
    (∀ (nspe me : ℕ) (cms : ℤ) (r0 : ℕ × ℕ × ℕ) (sd : List (String × ℕ))
        (s' : TrainerState), load_state_dict nspe me cms r0 sd = some s' →
      s'.max_steps = set_max_steps nspe me cms) ∧
    set_max_steps 10 3 (-1) = 30 ∧ set_max_steps 10 3 25 = 25 := by
  refine ⟨?_, ?_, ?_, by decide, by decide⟩
  · intro nspe me cms h
    simp [set_max_steps, h]
  · intro nspe me cms h
    simp [set_max_steps, not_le.mpr h]
  · intro nspe me cms r0 sd s' h
    rcases hst : sd.lookup "step" with _ | st <;>
      rcases hcs : sd.lookup "consumed_samples" with _ | cs <;>
        rcases hos : sd.lookup "ppo_optimization_step" with _ | os <;>
          simp only [load_state_dict, hst, hcs, hos] at h <;> try cases h
    by_cases hcond : (st, cs, os) = r0
    · rw [if_pos hcond] at h
      injection h with h
      rw [← h]
    · rw [if_neg hcond] at h
      cases h

/-- Witness for C9 at `steps_per_epoch = 10, max_epochs = 3`: override
`25` caps `max_steps` at `min 30 25`, override `-1` leaves `30`, and a
successful restore recomputes `max_steps` by the same formula. -/
theorem max_steps_formula_witness :
    ((0 : ℤ) ≤ 25 ∧ set_max_steps 10 3 25 = min ((10 : ℤ) * (3 : ℤ)) 25) ∧
    ((-1 : ℤ) < 0 ∧ set_max_steps 10 3 (-1) = (10 : ℤ) * (3 : ℤ)) ∧
    ({ step := 1, consumed_samples := 2, reinforce_optimization_step := 3,
       max_steps := 25 } : TrainerState).max_steps = set_max_steps 10 3 25 :=
  ⟨⟨by norm_num, max_steps_formula.1 10 3 25 (by norm_num)⟩,
    ⟨by norm_num, max_steps_formula.2.1 10 3 (-1) (by norm_num)⟩,
    max_steps_formula.2.2.1 10 3 25 (1, 2, 3)
      (state_dict 10 { step := 1, consumed_samples := 2,
                       reinforce_optimization_step := 3, max_steps := 99 })
      { step := 1, consumed_samples := 2, reinforce_optimization_step := 3,
        max_steps := 25 } (by decide)⟩

end ReinforceIFEval
